import Mathlib

/-!
Verification development for the FastShip matching engine
(public/shared/js/matcher.js).

The scoring pipeline is embedded shallowly:
* text fields that may be absent in JavaScript are `Option String`
  (`none` models `undefined`/`null`);
* numeric fields are `Option ℚ` (`none` models an absent or non-numeric
  value, whose `parseFloat` is `NaN`; `parseFloat(x) || 0` then coerces
  it to `0`);
* date fields are `Option ℚ` holding the parsed timestamp in
  milliseconds (`none` models an unparsable date, i.e. `NaN`);
* the one unguarded division in `getMatchReasons` is modelled with a
  small JavaScript-number type `JSNum` so that division by zero yields
  `Infinity`/`NaN` with JavaScript comparison semantics;
* the data-access boundary (Supabase) is modelled as an explicit
  in-memory state threaded through `sendContactRequest`, and the
  candidate fetch outcome of `findMatchingTrips` as an `Except` input;
* the vehicle-type lookup `similarTypes[shipmentType]?.includes(...)`
  of line 150 can throw a `TypeError` when the key is a property name
  inherited from `Object.prototype`; `calculateVehicleScoreJS` and
  `calculateMatchScoreJS` model that error path with `Except`, while
  the plain scorer functions model the non-throwing inputs.
-/

namespace FastShip

/-- JavaScript string-truthiness test for a possibly-absent string:
`!s` is true exactly when the value is `undefined`/`null` or `""`. -/
def jsFalsy : Option String → Bool
  | none => true
  | some s => s == ""

/-- JavaScript `hay.includes(sub)` on strings: `sub` occurs as a
contiguous substring of `hay`. -/
def strIncludes (hay sub : String) : Bool :=
  go sub.toList hay.toList
where
  /-- Walk the haystack, testing `sub` as a prefix at every position. -/
  go (sub : List Char) : List Char → Bool
    | [] => sub.isEmpty
    | c :: rest => sub.isPrefixOf (c :: rest) || go sub rest

/-- Model of `parseFloat(x) || 0`: an absent or non-numeric field
(`none`, i.e. `NaN`) is coerced to `0`; a parsed number is kept
(`0 || 0` is `0` as well, so `Option.getD` is exact). -/
def parseFloatOr0 (x : Option ℚ) : ℚ := x.getD 0

/-- Gazetteer of major Saudi city names used by `locationSimilarity`
(matcher.js line 172). -/
def cities : List String :=
  ["الرياض", "جدة", "مكة", "المدينة", "الدمام", "الخبر", "أبها", "تبوك", "حائل", "القصيم"]

/-- The five fixed region groupings of `locationSimilarity`
(matcher.js lines 179-185). -/
def regions : List (String × List String) :=
  [("وسط", ["الرياض", "القصيم", "حائل"]),
   ("غرب", ["مكة", "جدة", "المدينة"]),
   ("شرق", ["الدمام", "الخبر", "الأحساء"]),
   ("جنوب", ["أبها", "جازان", "نجران"]),
   ("شمال", ["تبوك", "الجوف", "حائل"])]

/-- Same-gazetteer-city test of `locationSimilarity` lines 173-176:
the first gazetteer city contained in each normalized string, when both
exist and coincide. -/
def sameCity (clean1 clean2 : String) : Bool :=
  match cities.find? (fun city => strIncludes clean1 city),
        cities.find? (fun city => strIncludes clean2 city) with
  | some c1, some c2 => c1 == c2
  | _, _ => false

/-- Same-region test of `locationSimilarity` lines 187-192: some region
group has a member city contained in each normalized string. -/
def sameRegion (clean1 clean2 : String) : Bool :=
  regions.any (fun r =>
    r.2.any (fun city => strIncludes clean1 city) &&
    r.2.any (fun city => strIncludes clean2 city))

/-- JavaScript `s.toLowerCase()` restricted to the ASCII mapping
(Arabic has no letter case, so the gazetteer strings are unaffected). -/
def jsToLower (s : String) : String := ⟨s.data.map Char.toLower⟩

/-- JavaScript `s.trim()`: strip leading and trailing whitespace. -/
def jsTrim (s : String) : String :=
  ⟨((s.data.dropWhile Char.isWhitespace).reverse.dropWhile Char.isWhitespace).reverse⟩

/-- Embedding of `locationSimilarity` (matcher.js lines 158-195): the
ordered rule cascade over lower-cased, trimmed inputs. -/
def locationSimilarity (loc1 loc2 : Option String) : ℚ :=
  if jsFalsy loc1 || jsFalsy loc2 then 0
  else
    let clean1 := jsTrim (jsToLower (loc1.getD ""))
    let clean2 := jsTrim (jsToLower (loc2.getD ""))
    if clean1 == clean2 then 1
    else if strIncludes clean1 clean2 || strIncludes clean2 clean1 then 4/5
    else if sameCity clean1 clean2 then 9/10
    else if sameRegion clean1 clean2 then 3/5
    else 1/5

/-- Shipment record as consumed by the matcher (§3 of the design). -/
structure Shipment where
  pickup_location : Option String
  delivery_location : Option String
  weight : Option ℚ
  preferred_date : Option ℚ
  vehicle_type_preferred : Option String

/-- Trip record as consumed by the matcher (§3 of the design); the
status / travel-date eligibility filter is applied by the candidate
query, so only the scored fields appear here. -/
structure Trip where
  origin : Option String
  destination : Option String
  capacity : Option ℚ
  travel_date : Option ℚ
  vehicle_type : Option String

/-- Embedding of `calculateLocationScore` (lines 86-92): average of the
pickup and delivery similarities. -/
def calculateLocationScore (shipment : Shipment) (trip : Trip) : ℚ :=
  (locationSimilarity shipment.pickup_location trip.origin +
   locationSimilarity shipment.delivery_location trip.destination) / 2

/-- Embedding of `calculateCapacityScore` (lines 97-112): coerce the
numeric fields, guard on coerced capacity `=== 0`, then the ordered
utilization bands. Division is only reached with nonzero divisor, so
field division on ℚ is exact here. -/
def calculateCapacityScore (shipment : Shipment) (trip : Trip) : ℚ :=
  let shipmentWeight := parseFloatOr0 shipment.weight
  let availableCapacity := parseFloatOr0 trip.capacity
  if availableCapacity = 0 then 0
  else
    let utilization := shipmentWeight / availableCapacity
    if 7/10 ≤ utilization ∧ utilization ≤ 9/10 then 1
    else if 1/2 ≤ utilization ∧ utilization ≤ 1 then 4/5
    else if 3/10 ≤ utilization ∧ utilization ≤ 6/5 then 3/5
    else if 6/5 < utilization then 0
    else 2/5

/-- Milliseconds in a day, the divisor of line 121. -/
def msPerDay : ℚ := 1000 * 60 * 60 * 24

/-- Date-difference cascade of `calculateDateScore` lines 124-130, as a
function of the (nonnegative, possibly fractional) day difference. -/
def dateScoreOfDiff (diffDays : ℚ) : ℚ :=
  if diffDays = 0 then 1
  else if diffDays ≤ 1 then 9/10
  else if diffDays ≤ 3 then 7/10
  else if diffDays ≤ 7 then 1/2
  else if diffDays ≤ 14 then 3/10
  else 0

/-- Embedding of `calculateDateScore` (lines 117-131). When either date
is unparsable the JavaScript difference is `NaN`, every comparison of
the cascade is false, and the result is `0`. -/
def calculateDateScore (shipment : Shipment) (trip : Trip) : ℚ :=
  match shipment.preferred_date, trip.travel_date with
  | some shipmentDate, some tripDate =>
      dateScoreOfDiff (|shipmentDate - tripDate| / msPerDay)
  | _, _ => 0

/-- JavaScript `x || 'any'` on a possibly-absent vehicle-type string. -/
def orAny : Option String → String
  | none => "any"
  | some s => if s == "" then "any" else s

/-- Similar-vehicle table of lines 144-148, as the own properties of
the `similarTypes` object literal. This total model returns `none` for
every other key, including property names inherited from
`Object.prototype` (such as "constructor"), on which the JavaScript
lookup of line 150 instead produces a non-nullish member and the
subsequent `.includes` call throws; `similarTypesLookup` and
`calculateVehicleScoreJS` below model that error path faithfully. -/
def similarTypes (t : String) : Option (List String) :=
  if t == "pickup" then some ["van", "truck"]
  else if t == "van" then some ["pickup", "truck"]
  else if t == "truck" then some ["van", "pickup"]
  else none

/-- Embedding of `calculateVehicleScore` (lines 136-153) on its
non-throwing inputs: total, returning 3/10 for unknown type strings.
The source throws a `TypeError` when the shipment type is an inherited
`Object.prototype` key and the trip type is a different non-`any`
string; `calculateVehicleScoreJS` below models that error path, and
the two agree everywhere else. -/
def calculateVehicleScore (shipment : Shipment) (trip : Trip) : ℚ :=
  let shipmentType := orAny shipment.vehicle_type_preferred
  let vehicleType := orAny trip.vehicle_type
  if shipmentType == "any" || vehicleType == "any" then 1
  else if shipmentType == vehicleType then 1
  else if (similarTypes shipmentType).elim false (fun l => l.contains vehicleType) then 7/10
  else 3/10

/-- Embedding of `calculateMatchScore` (lines 61-81): the weighted sum
of the four sub-scores, clamped by `Math.min(100, Math.max(0, score))`. -/
def calculateMatchScore (shipment : Shipment) (trip : Trip) : ℚ :=
  let score :=
    calculateLocationScore shipment trip * 40 +
    calculateCapacityScore shipment trip * 30 +
    calculateDateScore shipment trip * 20 +
    calculateVehicleScore shipment trip * 10
  min 100 (max 0 score)

/-- JavaScript number as produced by the one unguarded division of
`getMatchReasons` line 213: a finite rational, `NaN`, or a signed
infinity. -/
inductive JSNum where
  | num (q : ℚ)
  | nan
  | posInf
  | negInf
deriving DecidableEq

/-- JavaScript division `w / c` on finite operands: division by zero
yields `Infinity`, `-Infinity` or `NaN` depending on the sign of the
dividend. -/
def jsDiv (w c : ℚ) : JSNum :=
  if c = 0 then
    if 0 < w then .posInf
    else if w < 0 then .negInf
    else .nan
  else .num (w / c)

/-- JavaScript `x >= q` for a possibly non-finite left operand: `NaN`
compares false, `Infinity` true, `-Infinity` false. -/
def JSNum.geQ (x : JSNum) (q : ℚ) : Bool :=
  match x with
  | .num a => q ≤ a
  | .nan => false
  | .posInf => true
  | .negInf => false

/-- JavaScript `x <= q` for a possibly non-finite left operand. -/
def JSNum.leQ (x : JSNum) (q : ℚ) : Bool :=
  match x with
  | .num a => a ≤ q
  | .nan => false
  | .posInf => false
  | .negInf => true

/-- Reason messages pushed by `getMatchReasons` (lines 200-238); the
date-gap message interpolates the day difference, the others are fixed
Arabic strings. -/
inductive Reason where
  | pickupLocationMatch
  | deliveryLocationMatch
  | capacityPerfectFit
  | capacityGoodFit
  | dateExactMatch
  | dateDaysApart (diffDays : ℚ)
  | vehicleTypeMatch
deriving DecidableEq

/-- Embedding of `getMatchReasons` (lines 200-238): the conditionally
pushed reasons in source order. Unlike `calculateCapacityScore`, the
utilization here is computed without a zero-capacity guard, hence the
`JSNum` division. -/
def getMatchReasons (shipment : Shipment) (trip : Trip) : List Reason :=
  let pickupMatch := locationSimilarity shipment.pickup_location trip.origin
  let deliveryMatch := locationSimilarity shipment.delivery_location trip.destination
  let shipmentWeight := parseFloatOr0 shipment.weight
  let availableCapacity := parseFloatOr0 trip.capacity
  let utilization := jsDiv shipmentWeight availableCapacity
  let shipmentType := orAny shipment.vehicle_type_preferred
  let vehicleType := orAny trip.vehicle_type
  (if 4/5 ≤ pickupMatch then [Reason.pickupLocationMatch] else []) ++
  (if 4/5 ≤ deliveryMatch then [Reason.deliveryLocationMatch] else []) ++
  (if utilization.geQ (7/10) && utilization.leQ (9/10) then [Reason.capacityPerfectFit]
   else if utilization.geQ (1/2) && utilization.leQ 1 then [Reason.capacityGoodFit]
   else []) ++
  (match shipment.preferred_date, trip.travel_date with
   | some shipmentDate, some tripDate =>
       let diffDays := |shipmentDate - tripDate| / msPerDay
       if diffDays = 0 then [Reason.dateExactMatch]
       else if diffDays ≤ 3 then [Reason.dateDaysApart diffDays]
       else []
   | _, _ => []) ++
  (if shipmentType != "any" && vehicleType != "any" && shipmentType == vehicleType
   then [Reason.vehicleTypeMatch] else [])

/-- One entry of the list returned by `findMatchingTrips`
(lines 38-42): the trip, its composite score, and the reasons. -/
structure MatchResult where
  trip : Trip
  score : ℚ
  reasons : List Reason

/-- Stable descending insertion, modelling one step of the ECMAScript
stable `Array.prototype.sort` with comparator `(a, b) => b.score - a.score`:
the element being inserted comes from earlier in the input, so it is
placed before the first element whose key is not larger. -/
def insertDescBy (key : α → ℚ) (x : α) : List α → List α
  | [] => [x]
  | y :: ys => if key y < key x ∨ key x = key y then x :: y :: ys
               else y :: insertDescBy key x ys

/-- Stable sort descending by `key`, modelling
`matches.sort((a, b) => b.score - a.score)` (line 47). -/
def sortDescBy (key : α → ℚ) : List α → List α
  | [] => []
  | x :: xs => insertDescBy key x (sortDescBy key xs)

/-- Embedding of `findMatchingTrips` (lines 14-53). The candidate query
outcome is passed in explicitly: `.ok trips` is a successful fetch of
the eligible trips in fetch order, `.error e` a data-access failure
(`if (error) throw error`). The `catch` block swallows the failure and
returns the ordinary empty array. A candidate is pushed only when its
composite score is `> 0` (line 37), then the matches are sorted. -/
def findMatchingTrips (shipment : Shipment)
    (fetched : Except String (List Trip)) : List MatchResult :=
  match fetched with
  | .error _ => []
  | .ok trips =>
      sortDescBy MatchResult.score
        (trips.filterMap (fun trip =>
          let matchScore := calculateMatchScore shipment trip
          if 0 < matchScore then
            some ⟨trip, matchScore, getMatchReasons shipment trip⟩
          else none))

/-- Failure causes of `sendContactRequest`, one per distinct thrown
error of lines 243-288. -/
inductive ContactError where
  | userNotLoggedIn
  | shipperNotFound
  | tripNotFound
deriving DecidableEq

/-- Row of the `contact_requests` table as inserted by lines 269-279. -/
structure ContactRequest where
  shipper_id : Nat
  carrier_id : Nat
  shipment_id : Nat
  trip_id : Nat
  message : String
  status : String
  created_at : String
deriving DecidableEq

/-- In-memory model of the data-access boundary: the `shippers` table
as (user_id, shipper id) rows, the `trips` table as (trip id,
carrier_id) rows, and the `contact_requests` table. -/
structure DBState where
  shippers : List (Nat × Nat)
  trips : List (Nat × Nat)
  contact_requests : List ContactRequest
deriving DecidableEq

/-- Model of a Supabase `.select(..).eq(key, k).single()` query: it
succeeds exactly when one row matches the key. -/
def singleByKey (rows : List (Nat × Nat)) (k : Nat) : Option Nat :=
  match rows.filter (fun row => row.1 == k) with
  | [row] => some row.2
  | _ => none

/-- Result of `sendContactRequest`: `{ success: true, data }` or
`{ success: false, error }` with the distinct failure cause. -/
inductive ContactOutcome where
  | success (inserted : ContactRequest)
  | failure (e : ContactError)
deriving DecidableEq

/-- Embedding of `sendContactRequest` (lines 243-288), with the session
user and insertion timestamp passed explicitly and the database state
threaded: resolve the session user, the shipper row, then the trip's
carrier; any failure is thrown, caught, and returned as a failure
outcome with the state unchanged; otherwise one `pending`
ContactRequest row is appended. -/
def sendContactRequest (user : Option Nat) (shipmentId tripId : Nat)
    (message : String) (now : String) (db : DBState) :
    ContactOutcome × DBState :=
  match user with
  | none => (.failure .userNotLoggedIn, db)
  | some userId =>
    match singleByKey db.shippers userId with
    | none => (.failure .shipperNotFound, db)
    | some shipperId =>
      match singleByKey db.trips tripId with
      | none => (.failure .tripNotFound, db)
      | some carrierId =>
        let record : ContactRequest :=
          ⟨shipperId, carrierId, shipmentId, tripId, message, "pending", now⟩
        (.success record,
         { db with contact_requests := db.contact_requests ++ [record] })

/-! Range lemmas for the four sub-scores. -/

theorem locationSimilarity_bounds (a b : Option String) :
    0 ≤ locationSimilarity a b ∧ locationSimilarity a b ≤ 1 := by
  unfold locationSimilarity
  dsimp only
  constructor <;> split_ifs <;> norm_num

theorem calculateLocationScore_bounds (s : Shipment) (t : Trip) :
    0 ≤ calculateLocationScore s t ∧ calculateLocationScore s t ≤ 1 := by
  have h1 := locationSimilarity_bounds s.pickup_location t.origin
  have h2 := locationSimilarity_bounds s.delivery_location t.destination
  unfold calculateLocationScore
  constructor <;> linarith [h1.1, h1.2, h2.1, h2.2]

theorem calculateCapacityScore_bounds (s : Shipment) (t : Trip) :
    0 ≤ calculateCapacityScore s t ∧ calculateCapacityScore s t ≤ 1 := by
  unfold calculateCapacityScore
  dsimp only
  constructor <;> split_ifs <;> norm_num

theorem dateScoreOfDiff_bounds (d : ℚ) :
    0 ≤ dateScoreOfDiff d ∧ dateScoreOfDiff d ≤ 1 := by
  unfold dateScoreOfDiff
  constructor <;> split_ifs <;> norm_num

theorem calculateDateScore_bounds (s : Shipment) (t : Trip) :
    0 ≤ calculateDateScore s t ∧ calculateDateScore s t ≤ 1 := by
  unfold calculateDateScore
  rcases s.preferred_date with _ | a <;> rcases t.travel_date with _ | b <;>
    simp <;> exact dateScoreOfDiff_bounds _

theorem calculateVehicleScore_bounds (s : Shipment) (t : Trip) :
    3/10 ≤ calculateVehicleScore s t ∧ calculateVehicleScore s t ≤ 1 := by
  unfold calculateVehicleScore
  dsimp only
  constructor <;> split_ifs <;> norm_num

/-- The weighted sum before clamping always lies in `[3, 100]`: each
sub-score is nonnegative and at most `1`, and the vehicle sub-score is
at least `0.3`, so the clamp of line 80 never acts and the composite is
never `0`. -/
theorem calculateMatchScore_eq_and_ge_three (s : Shipment) (t : Trip) :
    calculateMatchScore s t =
      calculateLocationScore s t * 40 + calculateCapacityScore s t * 30 +
      calculateDateScore s t * 20 + calculateVehicleScore s t * 10 ∧
    3 ≤ calculateMatchScore s t := by
  have hL := calculateLocationScore_bounds s t
  have hC := calculateCapacityScore_bounds s t
  have hD := calculateDateScore_bounds s t
  have hV := calculateVehicleScore_bounds s t
  have hlo : (3 : ℚ) ≤ calculateLocationScore s t * 40 + calculateCapacityScore s t * 30 +
      calculateDateScore s t * 20 + calculateVehicleScore s t * 10 := by
    linarith [hL.1, hC.1, hD.1, hV.1]
  have hhi : calculateLocationScore s t * 40 + calculateCapacityScore s t * 30 +
      calculateDateScore s t * 20 + calculateVehicleScore s t * 10 ≤ 100 := by
    linarith [hL.2, hC.2, hD.2, hV.2]
  have heq : calculateMatchScore s t =
      calculateLocationScore s t * 40 + calculateCapacityScore s t * 30 +
      calculateDateScore s t * 20 + calculateVehicleScore s t * 10 := by
    unfold calculateMatchScore
    dsimp only
    rw [max_eq_right (by linarith), min_eq_right (by linarith)]
  exact ⟨heq, heq ▸ hlo⟩

/-- C2 -- `calculateMatchScore` is the weighted sum
`40·L + 30·C + 20·D + 10·V` of the four sub-scores, clamped to
`[0, 100]`; each sub-score lies in `[0, 1]`, and the composite score
always lies in `[0, 100]`. -/
theorem c2_composite_weighted_clamped (s : Shipment) (t : Trip) :
    calculateMatchScore s t =
      min 100 (max 0 (40 * calculateLocationScore s t + 30 * calculateCapacityScore s t +
        20 * calculateDateScore s t + 10 * calculateVehicleScore s t)) ∧
    (0 ≤ calculateLocationScore s t ∧ calculateLocationScore s t ≤ 1) ∧
    (0 ≤ calculateCapacityScore s t ∧ calculateCapacityScore s t ≤ 1) ∧
    (0 ≤ calculateDateScore s t ∧ calculateDateScore s t ≤ 1) ∧
    (0 ≤ calculateVehicleScore s t ∧ calculateVehicleScore s t ≤ 1) ∧
    (0 ≤ calculateMatchScore s t ∧ calculateMatchScore s t ≤ 100) := by
  have hV := calculateVehicleScore_bounds s t
  have hL := calculateLocationScore_bounds s t
  have hC := calculateCapacityScore_bounds s t
  have hD := calculateDateScore_bounds s t
  have h := calculateMatchScore_eq_and_ge_three s t
  have hcomm : 40 * calculateLocationScore s t + 30 * calculateCapacityScore s t +
      20 * calculateDateScore s t + 10 * calculateVehicleScore s t =
      calculateLocationScore s t * 40 + calculateCapacityScore s t * 30 +
      calculateDateScore s t * 20 + calculateVehicleScore s t * 10 := by ring
  have hform : calculateMatchScore s t =
      min 100 (max 0 (40 * calculateLocationScore s t + 30 * calculateCapacityScore s t +
        20 * calculateDateScore s t + 10 * calculateVehicleScore s t)) := by
    rw [h.1, hcomm, max_eq_right (by linarith [hL.1, hC.1, hD.1, hV.1]),
      min_eq_right (by linarith [hL.2, hC.2, hD.2, hV.2])]
  refine ⟨hform, calculateLocationScore_bounds s t, calculateCapacityScore_bounds s t,
    calculateDateScore_bounds s t, ⟨by linarith [hV.1], hV.2⟩, ?_, ?_⟩
  · rw [hform]
    exact le_min (by norm_num) (le_max_left 0 _)
  · rw [hform]
    exact min_le_left 100 _

/-- Shipment with weight 50 used to refute C3. -/
def c3Shipment : Shipment := ⟨none, none, some 50, none, none⟩

/-- Trip with capacity -1 used to refute C3. -/
def c3Trip : Trip := ⟨none, none, some (-1), none, none⟩

/-- C3 (counterexample) -- at weight 50 and capacity -1 the coerced
capacity is `-1 ≤ 0`, yet `calculateCapacityScore` returns `2/5`, not
`0`: the `=== 0` guard of line 101 does not cover negative capacity,
whose negative utilization falls through every band to the `0.4`
default. -/
theorem c3_negative_capacity_counterexample :
    parseFloatOr0 c3Trip.capacity ≤ 0 ∧
    calculateCapacityScore c3Shipment c3Trip = 2/5 ∧ (2/5 : ℚ) ≠ 0 := by
  refine ⟨by norm_num [parseFloatOr0, c3Trip], ?_, by norm_num⟩
  norm_num [calculateCapacityScore, parseFloatOr0, c3Shipment, c3Trip]

/-- C3 (amended) -- the capacity sub-score is `0` whenever the coerced
capacity is exactly `0` (including absent or non-numeric capacity),
regardless of weight; for strictly negative coerced capacity and
nonnegative weight the utilization is nonpositive and the sub-score is
`2/5`, not `0`. -/
theorem c3_capacity_zero_amended (s : Shipment) (t : Trip) :
    (parseFloatOr0 t.capacity = 0 → calculateCapacityScore s t = 0) ∧
    (parseFloatOr0 t.capacity < 0 → 0 ≤ parseFloatOr0 s.weight →
      calculateCapacityScore s t = 2/5) := by
  constructor
  · intro h
    unfold calculateCapacityScore
    rw [if_pos h]
  · intro hc hw
    have hu : parseFloatOr0 s.weight / parseFloatOr0 t.capacity ≤ 0 :=
      div_nonpos_of_nonneg_of_nonpos hw (le_of_lt hc)
    simp only [calculateCapacityScore]
    rw [if_neg (show ¬ parseFloatOr0 t.capacity = 0 from fun h => absurd (h ▸ hc) (lt_irrefl 0))]
    split_ifs with h1 h2 h3 h4
    · exact absurd hu (by push_neg; linarith [h1.1])
    · exact absurd hu (by push_neg; linarith [h2.1])
    · exact absurd hu (by push_neg; linarith [h3.1])
    · exact absurd hu (by push_neg; linarith [h4])
    · rfl

/-- C3 (witness for the amended theorem) -- concrete instances of both
branches: zero capacity gives score `0`, capacity `-1` with weight `50`
gives score `2/5`. -/
theorem c3_capacity_zero_witness :
    calculateCapacityScore c3Shipment ⟨none, none, some 0, none, none⟩ = 0 ∧
    calculateCapacityScore c3Shipment c3Trip = 2/5 :=
  ⟨(c3_capacity_zero_amended c3Shipment ⟨none, none, some 0, none, none⟩).1 (by norm_num [parseFloatOr0]),
   (c3_capacity_zero_amended c3Shipment c3Trip).2 (by norm_num [parseFloatOr0, c3Trip])
     (by norm_num [parseFloatOr0, c3Shipment])⟩

/-! Permutation, sortedness and stability of the modelled sort. -/

theorem insertDescBy_perm {α : Type} (key : α → ℚ) (x : α) (l : List α) :
    List.Perm (insertDescBy key x l) (x :: l) := by
  induction l with
  | nil => exact List.Perm.refl _
  | cons y ys ih =>
    unfold insertDescBy
    split_ifs with h
    · exact List.Perm.refl _
    · exact (List.Perm.cons y ih).trans (List.Perm.swap x y ys)

theorem sortDescBy_perm {α : Type} (key : α → ℚ) (l : List α) :
    List.Perm (sortDescBy key l) l := by
  induction l with
  | nil => exact List.Perm.refl _
  | cons x xs ih => exact (insertDescBy_perm key x _).trans (List.Perm.cons x ih)

theorem insertDescBy_pairwise {α : Type} (key : α → ℚ) (x : α) (l : List α)
    (h : l.Pairwise (fun a b => key b ≤ key a)) :
    (insertDescBy key x l).Pairwise (fun a b => key b ≤ key a) := by
  induction l with
  | nil => simp [insertDescBy]
  | cons y ys ih =>
    rw [List.pairwise_cons] at h
    unfold insertDescBy
    split_ifs with hcond
    · rw [List.pairwise_cons]
      refine ⟨?_, List.pairwise_cons.mpr h⟩
      intro z hz
      rcases List.mem_cons.mp hz with rfl | hz'
      · rcases hcond with h1 | h1
        · exact le_of_lt h1
        · exact le_of_eq h1.symm
      · have hzy := h.1 z hz'
        rcases hcond with h1 | h1 <;> linarith
    · rw [List.pairwise_cons]
      have hxy : key x ≤ key y := by
        push_neg at hcond
        exact hcond.1
      refine ⟨?_, ih h.2⟩
      intro z hz
      rcases List.mem_cons.mp ((insertDescBy_perm key x ys).mem_iff.mp hz) with rfl | hz'
      · exact hxy
      · exact h.1 z hz'

theorem sortDescBy_pairwise {α : Type} (key : α → ℚ) (l : List α) :
    (sortDescBy key l).Pairwise (fun a b => key b ≤ key a) := by
  induction l with
  | nil => simp [sortDescBy]
  | cons x xs ih => exact insertDescBy_pairwise key x _ ih

/-- Full characterization of a stable descending sort on
(score, fetch-position) pairs: scores strictly decrease, or are equal
with fetch positions in their original order. -/
def scoreIndexOrder (p q : ℚ × Nat) : Prop :=
  q.1 < p.1 ∨ (p.1 = q.1 ∧ p.2 < q.2)

theorem insertDescBy_stable (x : ℚ × Nat) (l : List (ℚ × Nat))
    (hR : l.Pairwise scoreIndexOrder) (hidx : ∀ z ∈ l, x.2 < z.2) :
    (insertDescBy Prod.fst x l).Pairwise scoreIndexOrder := by
  induction l with
  | nil => simp [insertDescBy]
  | cons y ys ih =>
    rw [List.pairwise_cons] at hR
    unfold insertDescBy
    split_ifs with hcond
    · rw [List.pairwise_cons]
      refine ⟨?_, List.pairwise_cons.mpr hR⟩
      intro z hz
      rcases List.mem_cons.mp hz with rfl | hz'
      · rcases hcond with h1 | h1
        · exact Or.inl h1
        · exact Or.inr ⟨h1, hidx _ (List.mem_cons_self _ _)⟩
      · have hyz := hR.1 z hz'
        have hxz := hidx z (List.mem_cons_of_mem y hz')
        rcases hcond with h1 | h1 <;> rcases hyz with h2 | h2
        · exact Or.inl (by linarith)
        · exact Or.inl (by linarith [h2.1])
        · exact Or.inl (by linarith)
        · exact Or.inr ⟨by linarith [h2.1], hxz⟩
    · have hxy : x.1 < y.1 := by
        push_neg at hcond
        exact lt_of_le_of_ne hcond.1 hcond.2
      rw [List.pairwise_cons]
      refine ⟨?_, ih hR.2 (fun z hz => hidx z (List.mem_cons_of_mem y hz))⟩
      intro z hz
      rcases List.mem_cons.mp ((insertDescBy_perm Prod.fst x ys).mem_iff.mp hz) with rfl | hz'
      · exact Or.inl hxy
      · exact hR.1 z hz'

theorem sortDescBy_stable (l : List (ℚ × Nat)) (h : l.Pairwise (fun p q => p.2 < q.2)) :
    (sortDescBy Prod.fst l).Pairwise scoreIndexOrder := by
  induction l with
  | nil => simp [sortDescBy]
  | cons x xs ih =>
    rw [List.pairwise_cons] at h
    exact insertDescBy_stable x _ (ih h.2)
      (fun z hz => h.1 z ((sortDescBy_perm Prod.fst xs).mem_iff.mp hz))

/-- The score filter of line 37 never drops a candidate: the composite
score is at least 3, so the pushed matches are exactly one per fetched
trip, in fetch order. -/
theorem matchList_eq_map (s : Shipment) (trips : List Trip) :
    trips.filterMap (fun trip =>
      let matchScore := calculateMatchScore s trip
      if 0 < matchScore then
        some (⟨trip, matchScore, getMatchReasons s trip⟩ : MatchResult)
      else none) =
    trips.map (fun trip =>
      (⟨trip, calculateMatchScore s trip, getMatchReasons s trip⟩ : MatchResult)) := by
  induction trips with
  | nil => rfl
  | cons t ts ih =>
    have hpos : 0 < calculateMatchScore s t :=
      lt_of_lt_of_le (by norm_num) (calculateMatchScore_eq_and_ge_three s t).2
    rw [List.map_cons, ← ih]
    exact List.filterMap_cons_some (by dsimp only; rw [if_pos hpos])

/-- C1 -- every fetched candidate trip appears in the list returned by
`findMatchingTrips`, with its composite score attached: the returned
list has one entry per candidate, and no minimum-score filtering takes
effect (indeed every composite score is at least 3, so the `> 0` guard
of line 37 never excludes anything). -/
theorem c1_all_candidates_ranked (s : Shipment) (trips : List Trip) :
    (findMatchingTrips s (Except.ok trips)).length = trips.length ∧
    (∀ t ∈ trips, ∃ m ∈ findMatchingTrips s (Except.ok trips),
      m.trip = t ∧ m.score = calculateMatchScore s t) ∧
    (∀ t : Trip, 3 ≤ calculateMatchScore s t) := by
  have hunf : findMatchingTrips s (Except.ok trips) =
      sortDescBy MatchResult.score (trips.map (fun trip =>
        (⟨trip, calculateMatchScore s trip, getMatchReasons s trip⟩ : MatchResult))) := by
    simp only [findMatchingTrips]
    rw [matchList_eq_map]
  have hperm : List.Perm (findMatchingTrips s (Except.ok trips))
      (trips.map (fun trip =>
        (⟨trip, calculateMatchScore s trip, getMatchReasons s trip⟩ : MatchResult))) := by
    rw [hunf]
    exact sortDescBy_perm _ _
  refine ⟨?_, ?_, fun t => (calculateMatchScore_eq_and_ge_three s t).2⟩
  · rw [hperm.length_eq, List.length_map]
  · intro t ht
    refine ⟨⟨t, calculateMatchScore s t, getMatchReasons s t⟩, ?_, rfl, rfl⟩
    rw [hperm.mem_iff]
    exact List.mem_map.mpr ⟨t, ht, rfl⟩

/-- C1 (witness) -- a concrete one-candidate run: the single trip
appears in the returned list. -/
theorem c1_all_candidates_ranked_witness :
    (findMatchingTrips ⟨none, none, none, none, none⟩
      (Except.ok [⟨none, none, none, none, none⟩])).length = 1 ∧
    ∃ m ∈ findMatchingTrips ⟨none, none, none, none, none⟩
      (Except.ok [⟨none, none, none, none, none⟩]),
      m.trip = ⟨none, none, none, none, none⟩ ∧
      m.score = calculateMatchScore ⟨none, none, none, none, none⟩ ⟨none, none, none, none, none⟩ :=
  ⟨(c1_all_candidates_ranked ⟨none, none, none, none, none⟩ [⟨none, none, none, none, none⟩]).1,
   (c1_all_candidates_ranked ⟨none, none, none, none, none⟩ [⟨none, none, none, none, none⟩]).2.1
     ⟨none, none, none, none, none⟩ (List.mem_singleton.mpr rfl)⟩

/-- C4 (counterexample) -- at a concrete data-access failure,
`findMatchingTrips` returns the ordinary empty list, identical to the
result of a successful fetch with no candidates: the failure is
swallowed by the `catch` of line 49, not propagated as a distinct error
result. -/
theorem c4_failure_swallowed_counterexample :
    findMatchingTrips ⟨none, none, none, none, none⟩
      (Except.error "data-access failure") = [] ∧
    findMatchingTrips ⟨none, none, none, none, none⟩ (Except.ok []) = [] :=
  ⟨rfl, rfl⟩

/-- C4 (amended) -- when the candidate-trip query fails with a
data-access error, `findMatchingTrips` catches the error, logs it, and
returns the ordinary empty list (indistinguishable from a successful
query with no matches) instead of propagating a distinct error result;
it does not retry. -/
theorem c4_fetch_failure_returns_empty (s : Shipment) (e : String) :
    findMatchingTrips s (Except.error e) = [] := rfl

/-- C9 -- the returned list is sorted in descending order of composite
score; the sort is stable with respect to fetch order for equal scores
(on (score, fetch-position) pairs in fetch-position order, the output
is pairwise ordered by descending score with original positions
breaking ties); and an empty candidate sequence yields the empty list. -/
theorem c9_ranking_sorted_stable_empty :
    (∀ (s : Shipment) (fetched : Except String (List Trip)),
      (findMatchingTrips s fetched).Pairwise (fun m1 m2 => m2.score ≤ m1.score)) ∧
    (∀ l : List (ℚ × Nat), l.Pairwise (fun p q => p.2 < q.2) →
      (sortDescBy Prod.fst l).Pairwise scoreIndexOrder) ∧
    (∀ s : Shipment, findMatchingTrips s (Except.ok []) = []) := by
  refine ⟨?_, sortDescBy_stable, fun s => rfl⟩
  intro s fetched
  match fetched with
  | .error e => simp [findMatchingTrips]
  | .ok trips =>
    simp only [findMatchingTrips]
    exact sortDescBy_pairwise MatchResult.score _

/-- C9 (witness) -- concrete instances: sorting two equal-score entries
keeps them in fetch order, and an empty fetch returns the empty list. -/
theorem c9_ranking_sorted_stable_empty_witness :
    (sortDescBy Prod.fst [((5 : ℚ), 0), ((5 : ℚ), 1)]).Pairwise scoreIndexOrder ∧
    findMatchingTrips ⟨none, none, none, none, none⟩ (Except.ok []) = [] :=
  ⟨c9_ranking_sorted_stable_empty.2.1 [((5 : ℚ), 0), ((5 : ℚ), 1)]
     (by simp [List.pairwise_cons]),
   c9_ranking_sorted_stable_empty.2.2 ⟨none, none, none, none, none⟩⟩

/-! Symmetry of the location similarity. -/

theorem string_beq_symm (a b : String) : (a == b) = (b == a) := by
  simp [Bool.beq_comm]

theorem sameCity_comm (c1 c2 : String) : sameCity c1 c2 = sameCity c2 c1 := by
  unfold sameCity
  rcases h1 : cities.find? (fun city => strIncludes c1 city) with _ | city1 <;>
    rcases h2 : cities.find? (fun city => strIncludes c2 city) with _ | city2 <;>
    simp only []
  exact string_beq_symm city1 city2

theorem sameRegion_comm (c1 c2 : String) : sameRegion c1 c2 = sameRegion c2 c1 := by
  unfold sameRegion
  congr 1
  funext r
  rw [Bool.and_comm]

/-- C7 -- `locationSimilarity` is symmetric in its two arguments: every
rule of the cascade is invariant under swapping the inputs. -/
theorem c7_locationSimilarity_symm (a b : Option String) :
    locationSimilarity a b = locationSimilarity b a := by
  unfold locationSimilarity
  rw [Bool.or_comm (jsFalsy a) (jsFalsy b)]
  by_cases h0 : (jsFalsy b || jsFalsy a) = true
  · rw [if_pos h0, if_pos h0]
  · rw [if_neg h0, if_neg h0]
    dsimp only
    set c1 := jsTrim (jsToLower (a.getD "")) with hc1
    set c2 := jsTrim (jsToLower (b.getD "")) with hc2
    rw [show (c1 == c2) = (c2 == c1) from string_beq_symm c1 c2,
      Bool.or_comm (strIncludes c1 c2) (strIncludes c2 c1),
      sameCity_comm c1 c2, sameRegion_comm c1 c2]

/-! The ordered rule cascade, stated the way the specification words it. -/

/-- Value of the first rule of an ordered (condition, value) list whose
condition holds, or the default when none holds. -/
def firstRule : List (Bool × ℚ) → ℚ → ℚ
  | [], dflt => dflt
  | (c, v) :: rest, dflt => if c then v else firstRule rest dflt

/-- Location similarity as the specification words it: an ordered rule
cascade over the case- and whitespace-normalized inputs, where the
first matching rule wins — missing/empty input 0.0, exact match 1.0,
substring 0.8, same gazetteer city 0.9, same region group 0.6,
otherwise 0.2. -/
def locationSimilaritySpec (loc1 loc2 : Option String) : ℚ :=
  let clean1 := jsTrim (jsToLower (loc1.getD ""))
  let clean2 := jsTrim (jsToLower (loc2.getD ""))
  firstRule
    [(jsFalsy loc1 || jsFalsy loc2, 0),
     (clean1 == clean2, 1),
     (strIncludes clean1 clean2 || strIncludes clean2 clean1, 4/5),
     (sameCity clean1 clean2, 9/10),
     (sameRegion clean1 clean2, 3/5)]
    (1/5)

/-- C6 -- `locationSimilarity` computes exactly the specification's
ordered rule cascade; moreover, at the concrete pair
("الرياض", "شمال الرياض") the same-city rule also holds, yet the result
is the substring value `0.8`, showing that the earlier substring rule
shadows the later same-city rule. -/
theorem c6_locationSimilarity_cascade :
    (∀ a b : Option String, locationSimilarity a b = locationSimilaritySpec a b) ∧
    sameCity "الرياض" "شمال الرياض" = true ∧
    locationSimilarity (some "الرياض") (some "شمال الرياض") = 4/5 := by
  refine ⟨fun a b => ?_, by rfl, by rfl⟩
  unfold locationSimilarity locationSimilaritySpec firstRule
  rfl

/-- C8 -- with both dates parsed, `calculateDateScore` is the cascade
on the absolute day difference; the cascade returns 1.0 exactly at
difference 0, returns 0.9 / 0.7 / 0.5 / 0.3 / 0.0 on the bands
(0,1] / (1,3] / (3,7] / (7,14] / (14,∞), and is monotonically
non-increasing on nonnegative differences. -/
theorem c8_date_score_bands (s : Shipment) (t : Trip) (a b : ℚ)
    (ha : s.preferred_date = some a) (hb : t.travel_date = some b) :
    calculateDateScore s t = dateScoreOfDiff (|a - b| / msPerDay) ∧
    (∀ d : ℚ, dateScoreOfDiff d = 1 ↔ d = 0) ∧
    (∀ d : ℚ, 0 < d → d ≤ 1 → dateScoreOfDiff d = 9/10) ∧
    (∀ d : ℚ, 1 < d → d ≤ 3 → dateScoreOfDiff d = 7/10) ∧
    (∀ d : ℚ, 3 < d → d ≤ 7 → dateScoreOfDiff d = 1/2) ∧
    (∀ d : ℚ, 7 < d → d ≤ 14 → dateScoreOfDiff d = 3/10) ∧
    (∀ d : ℚ, 14 < d → dateScoreOfDiff d = 0) ∧
    (∀ d1 d2 : ℚ, 0 ≤ d1 → d1 ≤ d2 → dateScoreOfDiff d2 ≤ dateScoreOfDiff d1) := by
  refine ⟨by simp [calculateDateScore, ha, hb], ?_, ?_, ?_, ?_, ?_, ?_, ?_⟩
  · intro d
    constructor
    · intro h
      by_contra hne
      unfold dateScoreOfDiff at h
      rw [if_neg hne] at h
      split_ifs at h <;> norm_num at h
    · intro h
      rw [h]
      rfl
  · intro d h1 h2
    unfold dateScoreOfDiff
    split_ifs <;> linarith
  · intro d h1 h2
    unfold dateScoreOfDiff
    split_ifs <;> linarith
  · intro d h1 h2
    unfold dateScoreOfDiff
    split_ifs <;> linarith
  · intro d h1 h2
    unfold dateScoreOfDiff
    split_ifs <;> linarith
  · intro d h1
    unfold dateScoreOfDiff
    split_ifs <;> linarith
  · intro d1 d2 h0 h12
    rcases eq_or_lt_of_le h0 with h0' | h0'
    · rw [← h0']
      rw [show dateScoreOfDiff 0 = 1 from rfl]
      exact (dateScoreOfDiff_bounds d2).2
    · unfold dateScoreOfDiff
      split_ifs <;> linarith

/-- Shipment whose preferred date parses to timestamp 0, for the C8
witness. -/
def dateShipment : Shipment := ⟨none, none, none, some 0, none⟩

/-- Trip whose travel date parses to timestamp 432000000 ms (5 days
after epoch), for the C8 witness. -/
def dateTrip : Trip := ⟨none, none, none, some 432000000, none⟩

/-- C8 (witness) -- a concrete 5-day gap: the date score is the cascade
value, and the (3,7] band gives 0.5. -/
theorem c8_date_score_bands_witness :
    calculateDateScore dateShipment dateTrip =
      dateScoreOfDiff (|(0 : ℚ) - 432000000| / msPerDay) ∧
    dateScoreOfDiff 5 = 1/2 :=
  ⟨(c8_date_score_bands dateShipment dateTrip 0 432000000 rfl rfl).1,
   (c8_date_score_bands dateShipment dateTrip 0 432000000 rfl rfl).2.2.2.2.1 5
     (by norm_num) (by norm_num)⟩

/-- C5 -- when the trip id matches no row of the trips table,
`sendContactRequest` never succeeds, leaves the database (in particular
`contact_requests`) unchanged, and — whenever the session user and the
shipper row do resolve — fails precisely with the trip-not-found
cause. -/
theorem c5_trip_not_found_no_insert (user : Option Nat) (shipmentId tripId : Nat)
    (message now : String) (db : DBState)
    (htrip : db.trips.filter (fun row => row.1 == tripId) = []) :
    (sendContactRequest user shipmentId tripId message now db).2 = db ∧
    (∀ rec, (sendContactRequest user shipmentId tripId message now db).1 ≠
      ContactOutcome.success rec) ∧
    (∀ userId shipperId, user = some userId →
      singleByKey db.shippers userId = some shipperId →
      (sendContactRequest user shipmentId tripId message now db).1 =
        ContactOutcome.failure ContactError.tripNotFound) := by
  have hsingle : singleByKey db.trips tripId = none := by
    unfold singleByKey
    rw [htrip]
  rcases user with _ | userId
  · refine ⟨rfl, ?_, ?_⟩
    · intro rec
      simp [sendContactRequest]
    · intro uid shid h hsk
      exact Option.noConfusion h
  · cases hs : singleByKey db.shippers userId with
    | none =>
      refine ⟨?_, ?_, ?_⟩
      · simp [sendContactRequest, hs]
      · intro rec
        simp [sendContactRequest, hs]
      · intro uid shid h hsk
        injection h with h'
        rw [← h', hs] at hsk
        exact Option.noConfusion hsk
    | some shipperId =>
      refine ⟨?_, ?_, ?_⟩
      · simp [sendContactRequest, hs, hsingle]
      · intro rec
        simp [sendContactRequest, hs, hsingle]
      · intro uid shid h hsk
        simp [sendContactRequest, hs, hsingle]

/-- Database state for the C5 witness: one shipper (user 7, shipper id
3), one trip (id 1, carrier 9), no contact requests. -/
def c5db : DBState := ⟨[(7, 3)], [(1, 9)], []⟩

/-- C5 (witness) -- requesting trip id 2, which does not exist in
`c5db`, fails with the trip-not-found cause and leaves the database
unchanged. -/
theorem c5_trip_not_found_no_insert_witness :
    (sendContactRequest (some 7) 5 2 "hello" "2024-06-10" c5db).1 =
      ContactOutcome.failure ContactError.tripNotFound ∧
    (sendContactRequest (some 7) 5 2 "hello" "2024-06-10" c5db).2 = c5db :=
  ⟨(c5_trip_not_found_no_insert (some 7) 5 2 "hello" "2024-06-10" c5db rfl).2.2 7 3 rfl rfl,
   (c5_trip_not_found_no_insert (some 7) 5 2 "hello" "2024-06-10" c5db rfl).1⟩

/-- Clamping alone caps the composite score at 100. -/
theorem calculateMatchScore_le_hundred (s : Shipment) (t : Trip) :
    calculateMatchScore s t ≤ 100 := by
  unfold calculateMatchScore
  dsimp only
  exact min_le_left _ _

/-- Dividing by a zero capacity in `getMatchReasons` yields
`Infinity`, `-Infinity` or `NaN`, each of which fails every
two-sided utilization band check. -/
theorem jsDiv_zero_band (w q q' : ℚ) :
    ((jsDiv w 0).geQ q && (jsDiv w 0).leQ q') = false := by
  unfold jsDiv
  rw [if_pos rfl]
  split_ifs <;> simp [JSNum.geQ, JSNum.leQ]

/-- Property names every plain JavaScript object inherits from
`Object.prototype`. Indexing the `similarTypes` literal of lines
144-148 with one of these resolves through the prototype chain to a
non-nullish member (a function, or `Object.prototype` itself for
`__proto__`), so the optional chain of line 150 does not short-circuit
and the subsequent `.includes` call throws a `TypeError`. -/
def objectPrototypeKeys : List String :=
  ["constructor", "hasOwnProperty", "isPrototypeOf", "propertyIsEnumerable",
   "toLocaleString", "toString", "valueOf", "__proto__",
   "__defineGetter__", "__defineSetter__", "__lookupGetter__", "__lookupSetter__"]

/-- Outcome of the JavaScript property read `similarTypes[t]`: an own
property (one of the three arrays), a non-nullish member inherited from
`Object.prototype` (on which `.includes` is undefined and calling it
throws), or `undefined`. -/
inductive PropLookup where
  | own (l : List String)
  | inherited
  | absent
deriving DecidableEq

/-- Faithful model of the lookup `similarTypes[t]` of line 150,
prototype chain included. -/
def similarTypesLookup (t : String) : PropLookup :=
  if t == "pickup" then .own ["van", "truck"]
  else if t == "van" then .own ["pickup", "truck"]
  else if t == "truck" then .own ["van", "pickup"]
  else if objectPrototypeKeys.contains t then .inherited
  else .absent

/-- Error-aware embedding of `calculateVehicleScore` (lines 136-153):
like `calculateVehicleScore`, but `similarTypes[shipmentType]?.includes(vehicleType)`
throws a `TypeError` when the lookup lands on an inherited
`Object.prototype` member, reached only with both types non-`any` and
distinct. -/
def calculateVehicleScoreJS (shipment : Shipment) (trip : Trip) : Except String ℚ :=
  let shipmentType := orAny shipment.vehicle_type_preferred
  let vehicleType := orAny trip.vehicle_type
  if shipmentType == "any" || vehicleType == "any" then .ok 1
  else if shipmentType == vehicleType then .ok 1
  else
    match similarTypesLookup shipmentType with
    | .own l => if l.contains vehicleType then .ok (7/10) else .ok (3/10)
    | .inherited => .error "TypeError"
    | .absent => .ok (3/10)

/-- Error-aware embedding of `calculateMatchScore` (lines 61-81): the
location, capacity and date sub-scores never throw, so the only error
path is the vehicle sub-score's `TypeError`, which propagates. -/
def calculateMatchScoreJS (shipment : Shipment) (trip : Trip) : Except String ℚ :=
  match calculateVehicleScoreJS shipment trip with
  | .error e => .error e
  | .ok vehicleScore =>
      .ok (min 100 (max 0 (calculateLocationScore shipment trip * 40 +
        calculateCapacityScore shipment trip * 30 +
        calculateDateScore shipment trip * 20 +
        vehicleScore * 10)))

/-- On own properties and plain misses the two lookup models agree; the
total `similarTypes` collapses the inherited case to `none`. -/
theorem similarTypes_of_lookup (t : String) :
    similarTypes t =
      (match similarTypesLookup t with
       | PropLookup.own l => some l
       | PropLookup.inherited => none
       | PropLookup.absent => none) := by
  unfold similarTypes similarTypesLookup
  split_ifs <;> rfl

/-- The error-aware vehicle score throws exactly when both types are
non-`any` and distinct and the shipment type is an inherited
`Object.prototype` key; otherwise it returns the total model's value. -/
theorem calculateVehicleScoreJS_eq (s : Shipment) (t : Trip) :
    calculateVehicleScoreJS s t =
      if ((orAny s.vehicle_type_preferred == "any" || orAny t.vehicle_type == "any") = false ∧
          (orAny s.vehicle_type_preferred == orAny t.vehicle_type) = false ∧
          similarTypesLookup (orAny s.vehicle_type_preferred) = PropLookup.inherited)
      then Except.error "TypeError"
      else Except.ok (calculateVehicleScore s t) := by
  unfold calculateVehicleScoreJS calculateVehicleScore
  dsimp only
  rw [similarTypes_of_lookup]
  by_cases h1 : (orAny s.vehicle_type_preferred == "any" || orAny t.vehicle_type == "any") = true
  · simp [h1]
  · rw [Bool.not_eq_true] at h1
    by_cases h2 : (orAny s.vehicle_type_preferred == orAny t.vehicle_type) = true
    · simp [h1, h2]
    · rw [Bool.not_eq_true] at h2
      cases hlk : similarTypesLookup (orAny s.vehicle_type_preferred) with
      | own l =>
        simp [h1, h2, hlk, apply_ite]
        split_ifs with hmem
        · exact fun hc => absurd hmem hc
        · exact fun hc => absurd hc hmem
      | inherited => simp [h1, h2, hlk]
      | absent => simp [h1, h2, hlk]

/-- The error-aware composite score: a `TypeError` under exactly the
vehicle error condition, the total model's clamped weighted sum
otherwise. -/
theorem calculateMatchScoreJS_eq (s : Shipment) (t : Trip) :
    calculateMatchScoreJS s t =
      if ((orAny s.vehicle_type_preferred == "any" || orAny t.vehicle_type == "any") = false ∧
          (orAny s.vehicle_type_preferred == orAny t.vehicle_type) = false ∧
          similarTypesLookup (orAny s.vehicle_type_preferred) = PropLookup.inherited)
      then Except.error "TypeError"
      else Except.ok (calculateMatchScore s t) := by
  unfold calculateMatchScoreJS
  rw [calculateVehicleScoreJS_eq]
  split_ifs with h
  · rfl
  · rfl

/-- C10 (counterexample) -- the scorer is not total: with preferred
vehicle type "constructor" (an inherited `Object.prototype` key) and a
differing non-`any` trip type, line 150 evaluates
`similarTypes["constructor"]?.includes("truck")` on a non-nullish
inherited member without `.includes`, and `calculateVehicleScore` —
hence `calculateMatchScore` — throws a `TypeError` instead of
returning a value. -/
theorem c10_prototype_key_counterexample :
    similarTypesLookup "constructor" = PropLookup.inherited ∧
    calculateVehicleScoreJS ⟨none, none, none, none, some "constructor"⟩
      ⟨none, none, none, none, some "truck"⟩ = Except.error "TypeError" ∧
    calculateMatchScoreJS ⟨none, none, none, none, some "constructor"⟩
      ⟨none, none, none, none, some "truck"⟩ = Except.error "TypeError" :=
  ⟨rfl, rfl, rfl⟩

/-- C10 (amended) -- `getMatchReasons` is total and never raises (its
reason list always exists, has at most 5 entries, and survives the
unguarded zero-capacity division); `calculateMatchScore` coerces
malformed numeric fields to 0 and scores unparsable dates 0, and it
returns a value in [0, 100] on every input except the one error path:
it throws a `TypeError` exactly when both vehicle types are non-`any`
and distinct and the shipment's coerced preferred type is a property
name inherited from `Object.prototype`. -/
theorem c10_totality_amended (s : Shipment) (t : Trip) :
    (calculateMatchScoreJS s t = Except.error "TypeError" ↔
      ((orAny s.vehicle_type_preferred == "any" || orAny t.vehicle_type == "any") = false ∧
       (orAny s.vehicle_type_preferred == orAny t.vehicle_type) = false ∧
       similarTypesLookup (orAny s.vehicle_type_preferred) = PropLookup.inherited)) ∧
    (∀ q : ℚ, calculateMatchScoreJS s t = Except.ok q →
      q = calculateMatchScore s t ∧ 0 ≤ q ∧ q ≤ 100) ∧
    (s.weight = none → calculateCapacityScore s t =
      calculateCapacityScore { s with weight := some 0 } t) ∧
    (t.capacity = none → calculateCapacityScore s t = 0) ∧
    (s.preferred_date = none → calculateDateScore s t = 0) ∧
    (t.capacity = none → Reason.capacityPerfectFit ∉ getMatchReasons s t ∧
      Reason.capacityGoodFit ∉ getMatchReasons s t) ∧
    (getMatchReasons s t).length ≤ 5 := by
  have h3 := calculateMatchScore_eq_and_ge_three s t
  refine ⟨?_, ?_, ?_, ?_, ?_, ?_, ?_⟩
  · rw [calculateMatchScoreJS_eq]
    split_ifs with h
    · exact iff_of_true rfl h
    · exact ⟨fun hq => hq.elim, fun hc => absurd hc h⟩
  · intro q hq
    rw [calculateMatchScoreJS_eq] at hq
    split_ifs at hq with h
    injection hq with hq'
    subst hq'
    exact ⟨rfl, by linarith [h3.2], calculateMatchScore_le_hundred s t⟩
  · intro h
    simp [calculateCapacityScore, parseFloatOr0, h]
  · intro h
    simp [calculateCapacityScore, parseFloatOr0, h]
  · intro h
    simp [calculateDateScore, h]
  · intro h
    constructor <;>
      (simp only [getMatchReasons, h, parseFloatOr0, Option.getD_none, jsDiv_zero_band,
        Bool.false_eq_true, if_false, List.append_nil, List.nil_append, List.mem_append]
       rcases s.preferred_date with _ | a <;> rcases t.travel_date with _ | b <;>
         split_ifs <;> simp <;> split_ifs <;> simp)
  · unfold getMatchReasons
    dsimp only
    rcases s.preferred_date with _ | a <;> rcases t.travel_date with _ | b <;>
      split_ifs <;> simp <;> split_ifs <;> simp

/-- C10 (witness for the amended theorem) -- concrete instances of both
sides: the "constructor"/"truck" pair throws, while the fully
malformed shipment and trip (every field absent) produce an ordinary
composite equal to the total model's value, and their capacity and date
scores coerce to 0. -/
theorem c10_totality_amended_witness :
    calculateMatchScoreJS ⟨none, none, none, none, some "constructor"⟩
      ⟨none, none, none, none, some "truck"⟩ = Except.error "TypeError" ∧
    (calculateMatchScore ⟨none, none, none, none, none⟩ ⟨none, none, none, none, none⟩ =
      calculateMatchScore ⟨none, none, none, none, none⟩ ⟨none, none, none, none, none⟩ ∧
      0 ≤ calculateMatchScore ⟨none, none, none, none, none⟩ ⟨none, none, none, none, none⟩ ∧
      calculateMatchScore ⟨none, none, none, none, none⟩ ⟨none, none, none, none, none⟩ ≤ 100) ∧
    calculateCapacityScore ⟨none, none, none, none, none⟩ ⟨none, none, none, none, none⟩ = 0 ∧
    calculateDateScore ⟨none, none, none, none, none⟩ ⟨none, none, none, none, none⟩ = 0 :=
  ⟨(c10_totality_amended ⟨none, none, none, none, some "constructor"⟩
      ⟨none, none, none, none, some "truck"⟩).1.mpr ⟨rfl, rfl, rfl⟩,
   (c10_totality_amended ⟨none, none, none, none, none⟩ ⟨none, none, none, none, none⟩).2.1
     (calculateMatchScore ⟨none, none, none, none, none⟩ ⟨none, none, none, none, none⟩) (by rfl),
   (c10_totality_amended ⟨none, none, none, none, none⟩ ⟨none, none, none, none, none⟩).2.2.2.1 rfl,
   (c10_totality_amended ⟨none, none, none, none, none⟩ ⟨none, none, none, none, none⟩).2.2.2.2.1 rfl⟩

end FastShip
